import Mathlib

/-!
Shallow embedding of the session-scoped AI chat server (Hono + Prisma app):
the session store (src/lib/session/index.ts, both revisions of the cleanup),
the chat endpoint (src/lib/api/app.ts, POST /api/chat), the cleanup endpoint
(POST /api/cleanup), and the model-call context builder
(src/lib/mastra/agent.ts, generateResponse).  Strings are modelled over
their character lists; timestamps are integers (epoch milliseconds); the
document database is a triple of lists of records; the LLM collaborator is
an opaque function parameter.
-/

namespace AiChat

/-! ### String primitives (JavaScript semantics over character lists) -/

/-- Whitespace characters removed by String.prototype.trim (ASCII part). -/
def isJsWs (c : Char) : Bool :=
  c = ' ' || c = '\t' || c = '\n' || c = '\r'

/-- JavaScript message.trim() on a character list. -/
def jsTrimList (cs : List Char) : List Char :=
  ((cs.dropWhile isJsWs).reverse.dropWhile isJsWs).reverse

/-- JavaScript message.trim() on a string. -/
def jsTrim (s : String) : String := String.mk (jsTrimList s.data)

/-- Hexadecimal digit class of the regexes in src/lib/api/app.ts
(character classes 0-9a-f with the i flag). -/
def isHexChar (c : Char) : Bool :=
  ('0' ≤ c && c ≤ '9') || ('a' ≤ c && c ≤ 'f') || ('A' ≤ c && c ≤ 'F')

/-- UUID_REGEX of app.ts: five dash-separated hex groups of lengths
8-4-4-4-12, case insensitive, anchored at both ends. -/
def isValidUUID (s : String) : Bool :=
  match s.data.splitOn '-' with
  | [a, b, c, d, e] =>
      a.length == 8 && b.length == 4 && c.length == 4 && d.length == 4 &&
      e.length == 12 && (a ++ b ++ c ++ d ++ e).all isHexChar
  | _ => false

/-- OBJECT_ID_REGEX of app.ts: exactly 24 hex characters. -/
def isValidObjectId (s : String) : Bool :=
  s.data.length == 24 && s.data.all isHexChar

/-- JavaScript parseInt(s, 10): skip leading whitespace, optional sign,
read leading decimal digits; none models NaN. -/
def parseIntJs (s : String) : Option Int :=
  let cs := s.data.dropWhile isJsWs
  let signSplit : Int × List Char :=
    match cs with
    | '-' :: rest => (-1, rest)
    | '+' :: rest => (1, rest)
    | _ => (1, cs)
  let ds := signSplit.2.takeWhile Char.isDigit
  if ds.isEmpty then none
  else some (signSplit.1 * (ds.foldl (fun acc c => acc * 10 + (c.toNat - '0'.toNat)) 0 : Nat))

/-! ### Data model (prisma schema: Session, Conversation, Message) -/

/-- A Session row: internal object id, client-visible UUID token in the
sessionId column, and the expiry timestamp in epoch milliseconds. -/
structure Session where
  id : String
  sessionId : String
  expiresAt : Int
  deriving DecidableEq

/-- A Conversation row; sessionId stores the internal id of the owning
Session row. -/
structure Conversation where
  id : String
  sessionId : String
  deriving DecidableEq

/-- A Message row; role is the literal string user or assistant. -/
structure Message where
  id : String
  conversationId : String
  role : String
  content : String
  createdAt : Int
  deriving DecidableEq

/-- The document database: the three collections, in insertion order. -/
structure DB where
  sessions : List Session
  conversations : List Conversation
  messages : List Message
  deriving DecidableEq

/-- Database well-formedness used by uniqueness-sensitive arguments:
row ids are unique within the sessions and conversations collections. -/
def DB.WellFormed (db : DB) : Prop :=
  (db.sessions.map Session.id).Nodup ∧ (db.conversations.map Conversation.id).Nodup

instance (db : DB) : Decidable db.WellFormed := by
  unfold DB.WellFormed; infer_instance

/-! ### Session store (src/lib/session/index.ts) -/

/-- prisma.session.findUnique on the unique sessionId column. -/
def findSession (db : DB) (sid : String) : Option Session :=
  db.sessions.find? (fun s => s.sessionId == sid)

/-- getSessionExpiryHours: default 24 when the variable is absent or the
empty string; error when parseInt yields NaN or a non-positive value. -/
def getSessionExpiryHours (env : Option String) : Except String Int :=
  match env with
  | none => .ok 24
  | some v =>
      if v = "" then .ok 24
      else
        match parseIntJs v with
        | none => .error ("SESSION_EXPIRY_HOURS must be a valid number, got: " ++ v)
        | some hours =>
            if hours ≤ 0 then
              .error ("SESSION_EXPIRY_HOURS must be a positive number, got: " ++ toString hours)
            else .ok hours

/-- createSession: generate a token (passed in as the token parameter,
standing for randomUUID), compute expiresAt = now + hours, persist, and
return both fields.  calculateExpiryDate calls getSessionExpiryHours, so a
bad SESSION_EXPIRY_HOURS value makes this whole call throw; the Except
error models that throw.  One hour is 3600000 milliseconds. -/
def createSession (env : Option String) (db : DB) (now : Int) (token freshId : String) :
    Except String ((String × Int) × DB) :=
  match getSessionExpiryHours env with
  | .error msg => .error msg
  | .ok hours =>
      let expiresAt := now + hours * 3600000
      .ok ((token, expiresAt),
           { db with sessions := db.sessions ++ [⟨freshId, token, expiresAt⟩] })

/-- POST /api/session: on success 200 with the new row persisted; a thrown
createSession error is caught and mapped to a 500 with no write. -/
def postSession (env : Option String) (db : DB) (now : Int) (token freshId : String) :
    Nat × DB :=
  match createSession env db now token freshId with
  | .ok (_, db1) => (200, db1)
  | .error _ => (500, db)

/-- Environment variables inspected by the startup instrumentation
(validateEnvironmentVariables in the instrumentation file); it only warns
on the console and never throws. -/
def startupCheckedEnvVars : List String := ["ANTHROPIC_API_KEY", "DATABASE_URL"]

/-- Result shape of validateSession. -/
inductive SessionValidation
  | notFound
  | expired
  | valid (sessionId : String) (expiresAt : Int)
  deriving DecidableEq

/-- validateSession: findUnique, then not-found, then expired when
now > expiresAt, else valid; the database is returned unchanged because
the source performs no write on this path. -/
def validateSession (db : DB) (now : Int) (sid : String) : SessionValidation × DB :=
  match findSession db sid with
  | none => (.notFound, db)
  | some s =>
      if s.expiresAt < now then (.expired, db)
      else (.valid s.sessionId s.expiresAt, db)

/-- getSessionById: findUnique on sessionId (the include of the latest
conversation is dropped: the chat handler only reads the id field). -/
def getSessionById (db : DB) (sid : String) : Option Session :=
  findSession db sid

/-! ### Cleanup of expired sessions (both revisions) -/

/-- The expiry predicate of both cleanup queries: expiresAt lt now. -/
def isExpired (now : Int) (s : Session) : Bool := s.expiresAt < now

/-- Sessions matched by the where clause expiresAt lt now. -/
def expiredSessions (db : DB) (now : Int) : List Session :=
  db.sessions.filter (isExpired now)

/-- Internal ids of the expired sessions. -/
def expiredSessionIds (db : DB) (now : Int) : List String :=
  (expiredSessions db now).map Session.id

/-- Ids of the conversations owned by expired sessions (the convIds batch
of the transactional revision, and the rows removed by cascade). -/
def cascadedConvIds (db : DB) (now : Int) : List String :=
  (db.conversations.filter
    (fun c => (expiredSessionIds db now).contains c.sessionId)).map Conversation.id

/-- cleanupExpiredSessions, session-store revision: a single
prisma.session.deleteMany with the schema-level cascade removing the owned
conversations and their messages; returns the deleteMany count. -/
def cleanupExpiredSessionsCascade (db : DB) (now : Int) : Nat × DB :=
  ((expiredSessions db now).length,
   { sessions := db.sessions.filter (fun s => !(isExpired now s)),
     conversations :=
       db.conversations.filter
         (fun c => !((expiredSessionIds db now).contains c.sessionId)),
     messages :=
       db.messages.filter
         (fun m => !((cascadedConvIds db now).contains m.conversationId)) })

/-- cleanupExpiredSessions, transactional revision: find expired session
ids; return 0 early when none; collect the owned conversation ids; delete
messages, conversations and sessions in that order inside one transaction;
return the number of expired sessions found. -/
def cleanupExpiredSessionsTx (db : DB) (now : Int) : Nat × DB :=
  let expired := expiredSessions db now
  if expired.isEmpty then (0, db)
  else
    let sessionIds := expired.map Session.id
    let convIds := cascadedConvIds db now
    (expired.length,
     { sessions := db.sessions.filter (fun s => !(sessionIds.contains s.id)),
       conversations :=
         db.conversations.filter (fun c => !(sessionIds.contains c.sessionId)),
       messages :=
         db.messages.filter (fun m => !(convIds.contains m.conversationId)) })

/-! ### Conversation store pieces used by POST /api/chat -/

/-- The prisma.conversation.findFirst of the chat handler: filters by the
conversation id and the owning session id inside the same where clause. -/
def findConversationOwnedBySession (db : DB) (cid ownerId : String) : Option Conversation :=
  db.conversations.find? (fun c => c.id == cid && c.sessionId == ownerId)

/-- Insert a message into a createdAt-ascending list, before the first
strictly later entry. -/
def insertByCreatedAt (m : Message) : List Message → List Message
  | [] => [m]
  | x :: xs =>
      if m.createdAt < x.createdAt then m :: x :: xs
      else x :: insertByCreatedAt m xs

/-- Sort messages by createdAt ascending (insertion sort). -/
def sortByCreatedAt : List Message → List Message
  | [] => []
  | x :: xs => insertByCreatedAt x (sortByCreatedAt xs)

/-- Message history of a conversation as fetched by the handler includes:
the rows with this conversationId, ordered by createdAt ascending. -/
def conversationMessages (db : DB) (cid : String) : List Message :=
  sortByCreatedAt (db.messages.filter (fun m => m.conversationId == cid))

/-! ### POST /api/chat -/

/-- A parsed JSON field value: a string, null, or any other JSON value
(number, boolean, array, object); the chat handler never distinguishes
among the latter. -/
inductive JsonValue
  | jstr (s : String)
  | jnull
  | jother
  deriving DecidableEq

/-- The fields the chat handler destructures from the request body; none
models an absent field (undefined). -/
structure ChatBody where
  message : Option JsonValue
  sessionId : Option JsonValue
  conversationId : Option JsonValue
  deriving DecidableEq

/-- Error codes reachable from the chat handler (errors.ts). -/
inductive ChatError
  | invalidRequestBody
  | missingMessage
  | emptyMessage
  | messageTooLong
  | missingSessionId
  | invalidSessionIdFormat
  | invalidConversationIdFormat
  | sessionInvalid
  | sessionNotFound
  | conversationNotFound
  deriving DecidableEq

/-- The HTTP status the handler pairs with each error response. -/
def httpStatus : ChatError → Nat
  | .sessionInvalid => 401
  | .sessionNotFound => 404
  | .conversationNotFound => 404
  | _ => 400

/-- The check !x || typeof x !== 'string' of the handler, packaged as an
extractor: some s exactly when the field is a non-empty string (the empty
string is falsy in JavaScript). -/
def nonEmptyStr : Option JsonValue → Option String
  | some (.jstr s) => if s = "" then none else some s
  | _ => none

/-- The conversationId validation of the handler: absent or null is
allowed (no conversation requested); a string must match the object-id
shape; any other value is rejected.  some none models the absent case,
some (some cid) a valid requested id, none a format error. -/
def convIdCheck : Option JsonValue → Option (Option String)
  | none => some none
  | some .jnull => some none
  | some (.jstr s) => if isValidObjectId s then some (some s) else none
  | some .jother => none

/-- The pure input-shape validation chain of POST /api/chat, in source
order: body parse, message presence, emptiness and length on the trimmed
text, session id presence and format, conversation id format. -/
def validateChatInput (body : Option ChatBody) : Option ChatError :=
  match body with
  | none => some .invalidRequestBody
  | some b =>
      match nonEmptyStr b.message with
      | none => some .missingMessage
      | some msg =>
          if (jsTrim msg).length = 0 then some .emptyMessage
          else if 400 < (jsTrim msg).length then some .messageTooLong
          else
            match nonEmptyStr b.sessionId with
            | none => some .missingSessionId
            | some sid =>
                if isValidUUID sid then
                  match convIdCheck b.conversationId with
                  | none => some .invalidConversationIdFormat
                  | some _ => none
                else some .invalidSessionIdFormat

/-- Spec-side violation predicate of each validation rule, defined rule by
rule on the raw body rather than as a chain. -/
def ruleViolated (e : ChatError) (body : Option ChatBody) : Bool :=
  match body with
  | none => e = .invalidRequestBody
  | some b =>
      match e with
      | .missingMessage => (nonEmptyStr b.message).isNone
      | .emptyMessage =>
          match b.message with
          | some (.jstr s) => (jsTrim s).length = 0
          | _ => false
      | .messageTooLong =>
          match b.message with
          | some (.jstr s) => 400 < (jsTrim s).length
          | _ => false
      | .missingSessionId => (nonEmptyStr b.sessionId).isNone
      | .invalidSessionIdFormat =>
          match b.sessionId with
          | some (.jstr s) => !(isValidUUID s)
          | _ => false
      | .invalidConversationIdFormat => (convIdCheck b.conversationId).isNone
      | _ => false

/-- The fixed order of the validation rules stated by the spec. -/
def validationOrder : List ChatError :=
  [.invalidRequestBody, .missingMessage, .emptyMessage, .messageTooLong,
   .missingSessionId, .invalidSessionIdFormat, .invalidConversationIdFormat]

/-- The earliest violated rule in the fixed order (spec-side definition,
to be compared with the implementation chain). -/
def firstViolatedRule (body : Option ChatBody) : Option ChatError :=
  validationOrder.find? (fun e => ruleViolated e body)

/-- Result of a chat turn. -/
inductive ChatOutcome
  | err (e : ChatError)
  | ok (response conversationId sessionId : String)
  deriving DecidableEq

/-- Observable result of running the chat handler: the response, the
database afterwards, and the messages array passed to the model
collaborator when it was invoked (none when the turn failed first). -/
structure ChatTurnOut where
  outcome : ChatOutcome
  db : DB
  modelCall : Option (List (String × String))
  deriving DecidableEq

/-- Steps 5 to 9 of the turn: persist the raw user message, build the
generateResponse messages array from the previously fetched history plus
the current raw message, invoke the model, persist the raw reply, answer.
generateResponse (agent.ts) maps the history to role-content pairs and
appends the current message once. -/
def runTurn (db : DB) (now : Int) (msg sid convId : String) (history : List Message)
    (model : List (String × String) → String) (uId aId : String) : ChatTurnOut :=
  let userMsg : Message := ⟨uId, convId, "user", msg, now⟩
  let db1 : DB := { db with messages := db.messages ++ [userMsg] }
  let ctx := history.map (fun m => (m.role, m.content)) ++ [("user", msg)]
  let reply := model ctx
  let asstMsg : Message := ⟨aId, convId, "assistant", reply, now⟩
  let db2 : DB := { db1 with messages := db1.messages ++ [asstMsg] }
  ⟨.ok reply convId sid, db2, some ctx⟩

/-- POST /api/chat: the full handler.  body is the parse result (none for
malformed JSON); model is the external collaborator; freshConvId,
freshUserMsgId and freshAsstMsgId stand for the store-generated ids of the
rows this turn may create. -/
def postChat (db : DB) (now : Int) (body : Option ChatBody)
    (model : List (String × String) → String)
    (freshConvId freshUserMsgId freshAsstMsgId : String) : ChatTurnOut :=
  match body with
  | none => ⟨.err .invalidRequestBody, db, none⟩
  | some b =>
      match nonEmptyStr b.message with
      | none => ⟨.err .missingMessage, db, none⟩
      | some msg =>
          if (jsTrim msg).length = 0 then ⟨.err .emptyMessage, db, none⟩
          else if 400 < (jsTrim msg).length then ⟨.err .messageTooLong, db, none⟩
          else
            match nonEmptyStr b.sessionId with
            | none => ⟨.err .missingSessionId, db, none⟩
            | some sid =>
                if isValidUUID sid then
                  match convIdCheck b.conversationId with
                  | none => ⟨.err .invalidConversationIdFormat, db, none⟩
                  | some cidOpt =>
                      match (validateSession db now sid).1 with
                      | .notFound => ⟨.err .sessionInvalid, db, none⟩
                      | .expired => ⟨.err .sessionInvalid, db, none⟩
                      | .valid _ _ =>
                          match getSessionById db sid with
                          | none => ⟨.err .sessionNotFound, db, none⟩
                          | some sess =>
                              match cidOpt with
                              | some cid =>
                                  match findConversationOwnedBySession db cid sess.id with
                                  | none => ⟨.err .conversationNotFound, db, none⟩
                                  | some conv =>
                                      runTurn db now msg sid conv.id
                                        (conversationMessages db conv.id)
                                        model freshUserMsgId freshAsstMsgId
                              | none =>
                                  let conv : Conversation := ⟨freshConvId, sess.id⟩
                                  let db1 : DB :=
                                    { db with conversations := db.conversations ++ [conv] }
                                  runTurn db1 now msg sid freshConvId []
                                    model freshUserMsgId freshAsstMsgId
                else ⟨.err .invalidSessionIdFormat, db, none⟩

/-! ### POST /api/cleanup -/

/-- Outcomes of the cleanup endpoint. -/
inductive CleanupOutcome
  | notConfigured
  | authRequired
  | authFailed
  | done (deletedCount : Nat)
  deriving DecidableEq

/-- The HTTP status paired with each cleanup outcome. -/
def cleanupStatus : CleanupOutcome → Nat
  | .notConfigured => 503
  | .authRequired => 401
  | .authFailed => 403
  | .done _ => 200

/-- POST /api/cleanup: 503 when CLEANUP_SECRET is unset (or empty, which
is falsy); 401 when the Authorization header is absent or does not start
with Bearer and a space (the falsy empty header also lands here); 403 when
the bearer token, the substring after the first seven characters, differs
from the secret; otherwise run the bulk cleanup (the cascade revision, the
one exported by the session store) and answer with its count. -/
def postCleanup (secret authHeader : Option String) (db : DB) (now : Int) :
    CleanupOutcome × DB :=
  match secret with
  | none => (.notConfigured, db)
  | some sec =>
      if sec = "" then (.notConfigured, db)
      else
        match authHeader with
        | none => (.authRequired, db)
        | some h =>
            if h.data.take 7 = "Bearer ".data then
              if h.data.drop 7 = sec.data then
                let cleaned := cleanupExpiredSessionsCascade db now
                (.done cleaned.1, cleaned.2)
              else (.authFailed, db)
            else (.authRequired, db)

/-! ### Image-attachment revision of the chat turn (spec-modelled)

The server sources at hand contain only the callers of this path: the
client request type carries optional imageData and imageMimeType fields
and the UI sends them, but the handler revision that reads them is not
among the files, so it is modelled from the spec below. -/

/-- Outcome of the image-aware chat turn: either the pairing rejection or
an outcome of the base turn. -/
inductive ImageChatOutcome
  | pairingRejected
  | base (o : ChatOutcome)
  deriving DecidableEq

/-- Observable result of the image-aware handler; modelImage is the image
the model collaborator received, when it was invoked. -/
structure ImageChatTurnOut where
  outcome : ImageChatOutcome
  db : DB
  modelCall : Option (List (String × String))
  modelImage : Option (String × String)
  deriving DecidableEq

/-- Modelled from the spec: the presence-pairing rule for the optional
image, payload and MIME type supplied both together or not at all. -/
def imagePairingOk (imageData imageMimeType : Option String) : Bool :=
  imageData.isSome == imageMimeType.isSome

/-- Modelled from the spec: the image-attachment revision of POST
/api/chat, absent from the server sources.  The only image check is the
presence-pairing rule; a paired image is handed to the model collaborator
verbatim alongside the usual context, and the rest of the turn is the
base handler unchanged. -/
def postChatWithImage (db : DB) (now : Int) (body : Option ChatBody)
    (imageData imageMimeType : Option String)
    (model : List (String × String) → Option (String × String) → String)
    (freshConvId freshUserMsgId freshAsstMsgId : String) : ImageChatTurnOut :=
  if imagePairingOk imageData imageMimeType then
    let imgPair : Option (String × String) :=
      match imageData, imageMimeType with
      | some d, some m => some (d, m)
      | _, _ => none
    let base := postChat db now body (fun ctx => model ctx imgPair)
      freshConvId freshUserMsgId freshAsstMsgId
    ⟨.base base.outcome, base.db, base.modelCall,
     if base.modelCall.isSome then imgPair else none⟩
  else ⟨.pairingRejected, db, none, none⟩

/-! ### Example data used by witness theorems -/

/-- An empty database. -/
def dbEmpty : DB := ⟨[], [], []⟩

/-- A well-formed UUID token. -/
def uuidA : String := "123e4567-e89b-42d3-a456-426614174000"

/-- A second well-formed UUID token. -/
def uuidB : String := "223e4567-e89b-42d3-a456-426614174000"

/-- A well-formed 24-hex conversation id. -/
def cidA : String := "507f1f77bcf86cd799439011"

/-- A second well-formed 24-hex conversation id. -/
def cidB : String := "607f1f77bcf86cd799439011"

/-- A live session holding token uuidA. -/
def sessA : Session := ⟨"sessAId", uuidA, 1000⟩

/-- A live session holding token uuidB. -/
def sessB : Session := ⟨"sessBId", uuidB, 1000⟩

/-- A conversation with id cidA owned by sessB. -/
def convOfB : Conversation := ⟨cidA, "sessBId"⟩

/-- Two sessions where the requested conversation belongs to the other
session. -/
def dbCross : DB := ⟨[sessA, sessB], [convOfB], []⟩

/-- A conversation with id cidB owned by sessA. -/
def convOfA : Conversation := ⟨cidB, "sessAId"⟩

/-- A database where sessA owns a conversation with two messages. -/
def dbOwned : DB :=
  ⟨[sessA], [convOfA],
   [⟨"m1", cidB, "user", "hi", 1⟩, ⟨"m2", cidB, "assistant", "yo", 2⟩]⟩

/-! ## C9: validateSession semantics -/

/-- C9: for every stored session token, validateSession fails with a
not-found result when no record matches, fails with an expired result
exactly when now is strictly greater than expiresAt (so the token is
still valid when now equals expiresAt), succeeds otherwise, and performs
no write (the database is returned unchanged). -/
theorem validateSession_expiry_semantics (db : DB) (now : Int) (tok : String) :
    (validateSession db now tok).2 = db ∧
    (findSession db tok = none → (validateSession db now tok).1 = .notFound) ∧
    (∀ s, findSession db tok = some s →
       ((validateSession db now tok).1 = .expired ↔ now > s.expiresAt) ∧
       (now ≤ s.expiresAt →
          (validateSession db now tok).1 = .valid s.sessionId s.expiresAt)) := by
  refine ⟨?_, ?_, ?_⟩
  · unfold validateSession
    cases h : findSession db tok with
    | none => rfl
    | some s => by_cases hlt : s.expiresAt < now <;> simp [hlt]
  · intro h; unfold validateSession; rw [h]
  · intro s h
    unfold validateSession
    rw [h]
    constructor
    · by_cases hlt : s.expiresAt < now <;> simp [hlt, gt_iff_lt]
    · intro hle
      have hlt : ¬(s.expiresAt < now) := not_lt.mpr hle
      simp [hlt]

/-- Witness for C9 at a concrete database: expired one tick past
expiresAt, valid at expiresAt, not found for an unknown token, database
untouched. -/
theorem validateSession_expiry_semantics_witness :
    (validateSession ⟨[⟨"sid1", uuidA, 100⟩], [], []⟩ 101 uuidA).1 = .expired ∧
    (validateSession ⟨[⟨"sid1", uuidA, 100⟩], [], []⟩ 100 uuidA).1 = .valid uuidA 100 ∧
    (validateSession ⟨[⟨"sid1", uuidA, 100⟩], [], []⟩ 100 uuidB).1 = .notFound ∧
    (validateSession ⟨[⟨"sid1", uuidA, 100⟩], [], []⟩ 101 uuidA).2 =
      ⟨[⟨"sid1", uuidA, 100⟩], [], []⟩ :=
  ⟨((validateSession_expiry_semantics ⟨[⟨"sid1", uuidA, 100⟩], [], []⟩ 101 uuidA).2.2
      ⟨"sid1", uuidA, 100⟩ (by decide)).1.mpr (by decide),
   ((validateSession_expiry_semantics ⟨[⟨"sid1", uuidA, 100⟩], [], []⟩ 100 uuidA).2.2
      ⟨"sid1", uuidA, 100⟩ (by decide)).2 (by decide),
   (validateSession_expiry_semantics ⟨[⟨"sid1", uuidA, 100⟩], [], []⟩ 100 uuidB).2.1 (by decide),
   (validateSession_expiry_semantics ⟨[⟨"sid1", uuidA, 100⟩], [], []⟩ 101 uuidA).1⟩

/-! ## C6: cleanup endpoint authentication -/

/-- C6: with no configured secret the endpoint answers ServiceUnavailable
503; with a configured non-empty secret it answers Unauthenticated 401
when the Authorization header is absent or not of Bearer form,
Unauthorized 403 when the bearer token differs from the secret by exact
comparison, and with the matching token it runs the bulk cleanup and
answers 200 with its deleted-session count; every failure leaves the
database unchanged. -/
theorem cleanup_endpoint_auth (secret authHeader : Option String) (db : DB) (now : Int) :
    (secret = none →
       postCleanup secret authHeader db now = (.notConfigured, db) ∧
       cleanupStatus .notConfigured = 503) ∧
    (∀ sec, secret = some sec → sec ≠ "" →
       (authHeader = none →
          postCleanup secret authHeader db now = (.authRequired, db) ∧
          cleanupStatus .authRequired = 401) ∧
       (∀ h, authHeader = some h → h.data.take 7 ≠ "Bearer ".data →
          postCleanup secret authHeader db now = (.authRequired, db) ∧
          cleanupStatus .authRequired = 401) ∧
       (∀ h, authHeader = some h → h.data.take 7 = "Bearer ".data →
          h.data.drop 7 ≠ sec.data →
          postCleanup secret authHeader db now = (.authFailed, db) ∧
          cleanupStatus .authFailed = 403) ∧
       (∀ h, authHeader = some h → h.data.take 7 = "Bearer ".data →
          h.data.drop 7 = sec.data →
          postCleanup secret authHeader db now =
            (.done (cleanupExpiredSessionsCascade db now).1,
             (cleanupExpiredSessionsCascade db now).2) ∧
          cleanupStatus (.done (cleanupExpiredSessionsCascade db now).1) = 200)) := by
  constructor
  · intro h; subst h; exact ⟨rfl, rfl⟩
  · intro sec hsec hne
    subst hsec
    refine ⟨?_, ?_, ?_, ?_⟩
    · intro h; subst h; exact ⟨by simp [postCleanup, hne], rfl⟩
    · intro h hh hpre; subst hh; exact ⟨by simp [postCleanup, hne, hpre], rfl⟩
    · intro h hh hpre htok; subst hh
      exact ⟨by simp [postCleanup, hne, hpre, htok], rfl⟩
    · intro h hh hpre htok; subst hh
      exact ⟨by simp [postCleanup, hne, hpre, htok], rfl⟩

/-- Witness for C6 at concrete inputs covering all five branches. -/
theorem cleanup_endpoint_auth_witness :
    postCleanup none (some "Bearer x") dbEmpty 0 = (.notConfigured, dbEmpty) ∧
    postCleanup (some "sec") none dbEmpty 0 = (.authRequired, dbEmpty) ∧
    postCleanup (some "sec") (some "Token sec") dbEmpty 0 = (.authRequired, dbEmpty) ∧
    postCleanup (some "sec") (some "Bearer wrong") dbEmpty 0 = (.authFailed, dbEmpty) ∧
    postCleanup (some "sec") (some "Bearer sec") dbEmpty 0 = (.done 0, dbEmpty) :=
  ⟨((cleanup_endpoint_auth none (some "Bearer x") dbEmpty 0).1 rfl).1,
   (((cleanup_endpoint_auth (some "sec") none dbEmpty 0).2 "sec" rfl (by decide)).1 rfl).1,
   (((cleanup_endpoint_auth (some "sec") (some "Token sec") dbEmpty 0).2 "sec" rfl
      (by decide)).2.1 "Token sec" rfl (by decide)).1,
   (((cleanup_endpoint_auth (some "sec") (some "Bearer wrong") dbEmpty 0).2 "sec" rfl
      (by decide)).2.2.1 "Bearer wrong" rfl (by decide) (by decide)).1,
   (((cleanup_endpoint_auth (some "sec") (some "Bearer sec") dbEmpty 0).2 "sec" rfl
      (by decide)).2.2.2 "Bearer sec" rfl (by decide) (by decide)).1⟩

/-! ## C4: session TTL misconfiguration -/

/-- Counterexample for C4 as stated: with SESSION_EXPIRY_HOURS set to 0
the failure does occur inside a request: createSession itself throws and
POST /api/session turns the throw into a per-request 500, while the
startup instrumentation never inspects SESSION_EXPIRY_HOURS at all (and
never throws), so the error is not a fatal startup error. -/
theorem ttl_misconfig_not_startup_counterexample :
    postSession (some "0") dbEmpty 0 "tok" "sid" = (500, dbEmpty) ∧
    createSession (some "0") dbEmpty 0 "tok" "sid" =
      Except.error "SESSION_EXPIRY_HOURS must be a positive number, got: 0" ∧
    "SESSION_EXPIRY_HOURS" ∉ startupCheckedEnvVars := by
  refine ⟨rfl, ?_, by decide⟩
  rfl

/-- C4 amended: a non-numeric or non-positive configured TTL makes every
createSession call fail inside the request, surfaced by POST /api/session
as a per-request 500 without a write (startup does not validate the TTL);
when the variable is absent or empty the default of 24 hours is used, and
a positive parsed value h yields expiresAt = now + h hours. -/
theorem ttl_validated_per_request (env : Option String) (db : DB) (now : Int)
    (tok fid : String) :
    (env = none ∨ env = some "" →
       createSession env db now tok fid =
         .ok ((tok, now + 24 * 3600000),
              { db with sessions := db.sessions ++ [⟨fid, tok, now + 24 * 3600000⟩] }) ∧
       postSession env db now tok fid =
         (200, { db with sessions := db.sessions ++ [⟨fid, tok, now + 24 * 3600000⟩] })) ∧
    (∀ v, env = some v → v ≠ "" → parseIntJs v = none →
       postSession env db now tok fid = (500, db)) ∧
    (∀ v k, env = some v → v ≠ "" → parseIntJs v = some k → k ≤ 0 →
       postSession env db now tok fid = (500, db)) ∧
    (∀ v k, env = some v → v ≠ "" → parseIntJs v = some k → 0 < k →
       createSession env db now tok fid =
         .ok ((tok, now + k * 3600000),
              { db with sessions := db.sessions ++ [⟨fid, tok, now + k * 3600000⟩] }) ∧
       postSession env db now tok fid =
         (200, { db with sessions := db.sessions ++ [⟨fid, tok, now + k * 3600000⟩] })) := by
  refine ⟨?_, ?_, ?_, ?_⟩
  · rintro (h | h) <;> subst h <;> exact ⟨rfl, rfl⟩
  · intro v hv hne hp; subst hv
    simp [postSession, createSession, getSessionExpiryHours, hne, hp]
  · intro v k hv hne hp hk; subst hv
    simp [postSession, createSession, getSessionExpiryHours, hne, hp, hk]
  · intro v k hv hne hp hk; subst hv
    have hk2 : ¬(k ≤ 0) := not_le.mpr hk
    constructor <;>
      simp [postSession, createSession, getSessionExpiryHours, hne, hp, hk2]

/-- Witness for C4 amended: default on absent variable, per-request 500
for a non-numeric value and for a negative value, success with a custom
positive value. -/
theorem ttl_validated_per_request_witness :
    createSession none dbEmpty 0 "t" "i" =
      .ok (("t", 86400000), ⟨[⟨"i", "t", 86400000⟩], [], []⟩) ∧
    postSession (some "abc") dbEmpty 0 "t" "i" = (500, dbEmpty) ∧
    postSession (some "-5") dbEmpty 0 "t" "i" = (500, dbEmpty) ∧
    postSession (some "12") dbEmpty 0 "t" "i" = (200, ⟨[⟨"i", "t", 43200000⟩], [], []⟩) :=
  ⟨((ttl_validated_per_request none dbEmpty 0 "t" "i").1 (Or.inl rfl)).1,
   (ttl_validated_per_request (some "abc") dbEmpty 0 "t" "i").2.1 "abc" rfl
     (by decide) (by decide),
   (ttl_validated_per_request (some "-5") dbEmpty 0 "t" "i").2.2.1 "-5" (-5) rfl
     (by decide) (by decide) (by decide),
   ((ttl_validated_per_request (some "12") dbEmpty 0 "t" "i").2.2.2 "12" 12 rfl
     (by decide) (by decide) (by decide)).2⟩

/-! ## C3: optional image pass-through (spec-modelled) -/

/-- C3: the only server-side check on the optional image is the
presence-pairing rule; when the pair is supplied the turn behaves exactly
as the image-free turn for every payload and MIME type (no content
validation), and whenever the model collaborator is invoked it receives
the image verbatim; when neither field is supplied the turn is the base
turn with no image. -/
theorem image_pairing_passthrough (db : DB) (now : Int) (body : Option ChatBody)
    (imageData imageMimeType : Option String)
    (model : List (String × String) → Option (String × String) → String)
    (fc fu fa : String) :
    (imagePairingOk imageData imageMimeType = false →
       postChatWithImage db now body imageData imageMimeType model fc fu fa =
         ⟨.pairingRejected, db, none, none⟩) ∧
    (∀ d m, imageData = some d → imageMimeType = some m →
       (postChatWithImage db now body imageData imageMimeType model fc fu fa).outcome =
         .base (postChat db now body (fun ctx => model ctx (some (d, m))) fc fu fa).outcome ∧
       (postChatWithImage db now body imageData imageMimeType model fc fu fa).db =
         (postChat db now body (fun ctx => model ctx (some (d, m))) fc fu fa).db ∧
       (postChatWithImage db now body imageData imageMimeType model fc fu fa).modelCall =
         (postChat db now body (fun ctx => model ctx (some (d, m))) fc fu fa).modelCall ∧
       ((postChat db now body (fun ctx => model ctx (some (d, m))) fc fu fa).modelCall.isSome
           = true →
          (postChatWithImage db now body imageData imageMimeType model fc fu fa).modelImage =
            some (d, m))) ∧
    (imageData = none → imageMimeType = none →
       (postChatWithImage db now body imageData imageMimeType model fc fu fa).outcome =
         .base (postChat db now body (fun ctx => model ctx none) fc fu fa).outcome ∧
       (postChatWithImage db now body imageData imageMimeType model fc fu fa).modelImage =
         none) := by
  refine ⟨?_, ?_, ?_⟩
  · intro h; simp [postChatWithImage, h]
  · intro d m hd hm; subst hd; subst hm
    refine ⟨by simp [postChatWithImage, imagePairingOk], by simp [postChatWithImage, imagePairingOk],
      by simp [postChatWithImage, imagePairingOk], ?_⟩
    intro hsome
    simp [postChatWithImage, imagePairingOk, hsome]
  · intro hd hm; subst hd; subst hm
    exact ⟨by simp [postChatWithImage, imagePairingOk], by simp [postChatWithImage, imagePairingOk]⟩

/-- Body of a valid chat turn against dbOwned: proper message, token of
sessA, conversation id of convOfA. -/
def bodyOwned : ChatBody := ⟨some (.jstr "hello"), some (.jstr uuidA), some (.jstr cidB)⟩

/-- Witness for C3 at a concrete accepted turn: the model receives the
image verbatim, and an unpaired image is rejected with no write. -/
theorem image_pairing_passthrough_witness :
    (postChatWithImage dbOwned 0 (some bodyOwned) (some "IMG") (some "image/png")
       (fun _ _ => "reply") "c" "u" "a").modelImage = some ("IMG", "image/png") ∧
    postChatWithImage dbOwned 0 (some bodyOwned) (some "IMG") none
       (fun _ _ => "reply") "c" "u" "a" = ⟨.pairingRejected, dbOwned, none, none⟩ :=
  ⟨((image_pairing_passthrough dbOwned 0 (some bodyOwned) (some "IMG") (some "image/png")
      (fun _ _ => "reply") "c" "u" "a").2.1 "IMG" "image/png" rfl rfl).2.2.2 (by decide),
   (image_pairing_passthrough dbOwned 0 (some bodyOwned) (some "IMG") none
      (fun _ _ => "reply") "c" "u" "a").1 (by decide)⟩

/-! ## C5: cleanup deletes exactly the expired tree, idempotently -/

/-- Contains on a list of strings agrees with membership. -/
lemma contains_iff_memStr {l : List String} {x : String} :
    l.contains x = true ↔ x ∈ l :=
  List.elem_iff

/-- Under unique session ids, deleting by membership in the expired-id
batch removes exactly the expired sessions. -/
lemma tx_sessions_eq (db : DB) (now : Int)
    (hnd : (db.sessions.map Session.id).Nodup) :
    db.sessions.filter
      (fun s => !(((expiredSessions db now).map Session.id).contains s.id)) =
    db.sessions.filter (fun s => !(isExpired now s)) := by
  apply List.filter_congr
  intro s hs
  have hmain : ((expiredSessions db now).map Session.id).contains s.id = isExpired now s := by
    cases hexp : isExpired now s with
    | true =>
        apply contains_iff_memStr.mpr
        exact List.mem_map.mpr ⟨s, List.mem_filter.mpr ⟨hs, hexp⟩, rfl⟩
    | false =>
        apply Bool.eq_false_iff.mpr
        intro hc
        obtain ⟨s2, hs2, hid⟩ := List.mem_map.mp (contains_iff_memStr.mp hc)
        obtain ⟨hs2mem, hs2exp⟩ := List.mem_filter.mp hs2
        have : s2 = s := List.inj_on_of_nodup_map hnd hs2mem hs hid
        rw [this] at hs2exp
        rw [hs2exp] at hexp
        cases hexp
  rw [hmain]

/-- The sessions surviving a cascade run are never expired at that
instant. -/
lemma cascade_survivors_not_expired (db : DB) (now : Int) :
    expiredSessions (cleanupExpiredSessionsCascade db now).2 now = [] := by
  unfold expiredSessions cleanupExpiredSessionsCascade
  rw [List.filter_filter]
  apply List.filter_eq_nil_iff.mpr
  intro s hs
  simp

/-- C5: both cleanup revisions delete exactly the sessions with
expiresAt strictly before now, together with exactly the conversations
owned by those sessions and the messages of those conversations; both
return the number of sessions removed; the transactional revision
produces the same result as the cascade revision; no surviving
conversation or message belongs to a deleted session; and a second run
over the cleaned database deletes nothing. -/
theorem cleanup_exact_idempotent_no_orphans (db : DB) (now : Int) (hwf : db.WellFormed) :
    (cleanupExpiredSessionsCascade db now).1 = (expiredSessions db now).length ∧
    (cleanupExpiredSessionsCascade db now).2.sessions =
      db.sessions.filter (fun s => !(isExpired now s)) ∧
    (cleanupExpiredSessionsCascade db now).2.conversations =
      db.conversations.filter
        (fun c => !((expiredSessionIds db now).contains c.sessionId)) ∧
    (cleanupExpiredSessionsCascade db now).2.messages =
      db.messages.filter
        (fun m => !((cascadedConvIds db now).contains m.conversationId)) ∧
    cleanupExpiredSessionsTx db now = cleanupExpiredSessionsCascade db now ∧
    (∀ c ∈ (cleanupExpiredSessionsCascade db now).2.conversations,
       ∀ s ∈ db.sessions, isExpired now s = true → c.sessionId ≠ s.id) ∧
    (∀ m ∈ (cleanupExpiredSessionsCascade db now).2.messages,
       ∀ c ∈ db.conversations, c.id = m.conversationId →
         ∀ s ∈ db.sessions, isExpired now s = true → c.sessionId ≠ s.id) ∧
    (cleanupExpiredSessionsCascade (cleanupExpiredSessionsCascade db now).2 now).1 = 0 ∧
    (cleanupExpiredSessionsTx (cleanupExpiredSessionsTx db now).2 now).1 = 0 := by
  obtain ⟨hndS, hndC⟩ := hwf
  have htx : cleanupExpiredSessionsTx db now = cleanupExpiredSessionsCascade db now := by
    by_cases hemp : (expiredSessions db now).isEmpty = true
    · have hnil : expiredSessions db now = [] := List.isEmpty_iff.mp hemp
      have hids : expiredSessionIds db now = [] := by
        unfold expiredSessionIds; rw [hnil]; rfl
      have hcc : cascadedConvIds db now = [] := by
        unfold cascadedConvIds; rw [hids]; simp
      simp only [cleanupExpiredSessionsTx, cleanupExpiredSessionsCascade, hnil, hids, hcc]
      simp only [List.isEmpty_nil, if_true, List.length_nil, List.contains_nil,
        Bool.not_false, List.filter_true]
      have h1 : db.sessions.filter (fun s => !(isExpired now s)) = db.sessions := by
        apply List.filter_eq_self.mpr
        intro a ha
        have := List.filter_eq_nil_iff.mp hnil a ha
        simp only [Bool.not_eq_true'] at this ⊢
        simp [this]
      rw [h1]
    · have hne : (expiredSessions db now).isEmpty = false := Bool.eq_false_iff.mpr hemp
      simp only [cleanupExpiredSessionsTx, cleanupExpiredSessionsCascade, hne,
        Bool.false_eq_true, if_false, expiredSessionIds]
      congr 1
      congr 1
      exact tx_sessions_eq db now hndS
  have hconvOrphan : ∀ c ∈ (cleanupExpiredSessionsCascade db now).2.conversations,
      ∀ s ∈ db.sessions, isExpired now s = true → c.sessionId ≠ s.id := by
    intro c hc s hs hexp heq
    obtain ⟨_, hkeep⟩ := List.mem_filter.mp hc
    rw [Bool.not_eq_true'] at hkeep
    have hmem : s.id ∈ expiredSessionIds db now := by
      unfold expiredSessionIds expiredSessions
      exact List.mem_map.mpr ⟨s, List.mem_filter.mpr ⟨hs, hexp⟩, rfl⟩
    rw [heq] at hkeep
    rw [contains_iff_memStr.mpr hmem] at hkeep
    cases hkeep
  have hmsgOrphan : ∀ m ∈ (cleanupExpiredSessionsCascade db now).2.messages,
      ∀ c ∈ db.conversations, c.id = m.conversationId →
        ∀ s ∈ db.sessions, isExpired now s = true → c.sessionId ≠ s.id := by
    intro m hm c hc hcid s hs hexp heq
    obtain ⟨_, hkeep⟩ := List.mem_filter.mp hm
    rw [Bool.not_eq_true'] at hkeep
    have hsid : s.id ∈ expiredSessionIds db now := by
      unfold expiredSessionIds expiredSessions
      exact List.mem_map.mpr ⟨s, List.mem_filter.mpr ⟨hs, hexp⟩, rfl⟩
    have hcmem : m.conversationId ∈ cascadedConvIds db now := by
      unfold cascadedConvIds
      refine List.mem_map.mpr ⟨c, List.mem_filter.mpr ⟨hc, ?_⟩, hcid⟩
      rw [heq]
      exact contains_iff_memStr.mpr hsid
    rw [contains_iff_memStr.mpr hcmem] at hkeep
    cases hkeep
  have hidem : (cleanupExpiredSessionsCascade (cleanupExpiredSessionsCascade db now).2 now).1 = 0 := by
    show (expiredSessions (cleanupExpiredSessionsCascade db now).2 now).length = 0
    rw [cascade_survivors_not_expired]
    rfl
  have hidemTx : (cleanupExpiredSessionsTx (cleanupExpiredSessionsTx db now).2 now).1 = 0 := by
    rw [htx]
    have hnil := cascade_survivors_not_expired db now
    simp only [cleanupExpiredSessionsTx, hnil]
    rfl
  exact ⟨rfl, rfl, rfl, rfl, htx, hconvOrphan, hmsgOrphan, hidem, hidemTx⟩

/-- A database with one expired and one live session, each owning one
conversation with one message. -/
def dbCleanup : DB :=
  ⟨[⟨"sOld", uuidB, -10⟩, sessA],
   [⟨cidA, "sOld"⟩, convOfA],
   [⟨"mOld", cidA, "user", "bye", 0⟩, ⟨"mNew", cidB, "user", "hi", 1⟩]⟩

/-- Witness for C5 at a concrete database: one session removed, the
transactional and cascade revisions agree, the expired tree is gone, the
live tree survives, and the second run removes nothing. -/
theorem cleanup_exact_idempotent_no_orphans_witness :
    DB.WellFormed dbCleanup ∧
    (cleanupExpiredSessionsCascade dbCleanup 0).1 = 1 ∧
    cleanupExpiredSessionsTx dbCleanup 0 = cleanupExpiredSessionsCascade dbCleanup 0 ∧
    (cleanupExpiredSessionsCascade dbCleanup 0).2 =
      ⟨[sessA], [convOfA], [⟨"mNew", cidB, "user", "hi", 1⟩]⟩ ∧
    (cleanupExpiredSessionsCascade (cleanupExpiredSessionsCascade dbCleanup 0).2 0).1 = 0 := by
  have h := cleanup_exact_idempotent_no_orphans dbCleanup 0 (by decide)
  refine ⟨by decide, ?_, h.2.2.2.2.1, ?_, h.2.2.2.2.2.2.2.1⟩
  · rw [h.1]; decide
  · have hs := h.2.1
    have hc := h.2.2.1
    have hm := h.2.2.2.1
    have : (cleanupExpiredSessionsCascade dbCleanup 0).2 =
        ⟨(cleanupExpiredSessionsCascade dbCleanup 0).2.sessions,
         (cleanupExpiredSessionsCascade dbCleanup 0).2.conversations,
         (cleanupExpiredSessionsCascade dbCleanup 0).2.messages⟩ := rfl
    rw [this, hs, hc, hm]
    decide

/-! ## Chat handler run lemmas -/

/-- Unfolded form of steps 5 to 9: outcome, persisted rows and model
context of an accepted turn. -/
lemma runTurn_eq (db : DB) (now : Int) (msg sid convId : String) (history : List Message)
    (model : List (String × String) → String) (uId aId : String) :
    runTurn db now msg sid convId history model uId aId =
      ⟨.ok (model (history.map (fun m => (m.role, m.content)) ++ [("user", msg)])) convId sid,
       ⟨db.sessions, db.conversations,
        db.messages ++
          [⟨uId, convId, "user", msg, now⟩,
           ⟨aId, convId, "assistant",
            model (history.map (fun m => (m.role, m.content)) ++ [("user", msg)]), now⟩]⟩,
       some (history.map (fun m => (m.role, m.content)) ++ [("user", msg)])⟩ := by
  unfold runTurn
  simp [List.append_assoc]

/-- A turn that passes validation, session checks and the ownership
lookup runs the persisted turn against the found conversation and the
history fetched before the user message is appended. -/
lemma postChat_existing_run
    (db : DB) (now : Int) (b : ChatBody)
    (model : List (String × String) → String) (fc fu fa : String)
    (msg sid cid v : String) (e : Int) (sess : Session) (conv : Conversation)
    (hm : nonEmptyStr b.message = some msg)
    (h0 : ¬((jsTrim msg).length = 0))
    (h4 : ¬(400 < (jsTrim msg).length))
    (hs : nonEmptyStr b.sessionId = some sid)
    (hu : isValidUUID sid = true)
    (hc : convIdCheck b.conversationId = some (some cid))
    (hv : (validateSession db now sid).1 = .valid v e)
    (hg : getSessionById db sid = some sess)
    (hf : findConversationOwnedBySession db cid sess.id = some conv) :
    postChat db now (some b) model fc fu fa =
      runTurn db now msg sid conv.id (conversationMessages db conv.id) model fu fa := by
  simp [postChat, hm, h0, h4, hs, hu, hc, hv, hg, hf]

/-- A turn that passes validation and session checks with no requested
conversation creates a fresh conversation owned by the session and runs
the turn against an empty history. -/
lemma postChat_fresh_run
    (db : DB) (now : Int) (b : ChatBody)
    (model : List (String × String) → String) (fc fu fa : String)
    (msg sid v : String) (e : Int) (sess : Session)
    (hm : nonEmptyStr b.message = some msg)
    (h0 : ¬((jsTrim msg).length = 0))
    (h4 : ¬(400 < (jsTrim msg).length))
    (hs : nonEmptyStr b.sessionId = some sid)
    (hu : isValidUUID sid = true)
    (hc : convIdCheck b.conversationId = some none)
    (hv : (validateSession db now sid).1 = .valid v e)
    (hg : getSessionById db sid = some sess) :
    postChat db now (some b) model fc fu fa =
      runTurn { db with conversations := db.conversations ++ [⟨fc, sess.id⟩] }
        now msg sid fc [] model fu fa := by
  simp [postChat, hm, h0, h4, hs, hu, hc, hv, hg]

/-! ## C1: conversation lookup is ownership-scoped -/

/-- C1: the conversation lookup filters by conversation id and owning
session id in one query, so a returned conversation always carries the
requesting session id; and a chat turn requesting a conversation id for
which that scoped lookup finds nothing, absent or owned by another
session alike, fails conversationNotFound with HTTP 404 and no write. -/
theorem conversation_ownership_enforced :
    (∀ (db : DB) (cid sid : String) (conv : Conversation),
       findConversationOwnedBySession db cid sid = some conv →
       conv.sessionId = sid ∧ conv.id = cid) ∧
    (∀ (db : DB) (now : Int) (b : ChatBody)
       (model : List (String × String) → String) (fc fu fa msg sid cid v : String)
       (e : Int) (sess : Session),
       nonEmptyStr b.message = some msg →
       ¬((jsTrim msg).length = 0) →
       ¬(400 < (jsTrim msg).length) →
       nonEmptyStr b.sessionId = some sid →
       isValidUUID sid = true →
       convIdCheck b.conversationId = some (some cid) →
       (validateSession db now sid).1 = .valid v e →
       getSessionById db sid = some sess →
       findConversationOwnedBySession db cid sess.id = none →
       postChat db now (some b) model fc fu fa = ⟨.err .conversationNotFound, db, none⟩ ∧
       httpStatus .conversationNotFound = 404) := by
  constructor
  · intro db cid sid conv h
    unfold findConversationOwnedBySession at h
    have hp := List.find?_some h
    rw [Bool.and_eq_true, beq_iff_eq, beq_iff_eq] at hp
    exact ⟨hp.2, hp.1⟩
  · intro db now b model fc fu fa msg sid cid v e sess hm h0 h4 hs hu hc hv hg hf
    refine ⟨?_, rfl⟩
    simp [postChat, hm, h0, h4, hs, hu, hc, hv, hg, hf]

/-- Witness for C1: a turn of sessA requesting the conversation owned by
sessB is answered conversationNotFound 404 with the database unchanged. -/
theorem conversation_ownership_enforced_witness :
    postChat dbCross 0 (some ⟨some (.jstr "hi"), some (.jstr uuidA), some (.jstr cidA)⟩)
      (fun _ => "reply") "c" "u" "a" = ⟨.err .conversationNotFound, dbCross, none⟩ ∧
    httpStatus .conversationNotFound = 404 :=
  conversation_ownership_enforced.2 dbCross 0
    ⟨some (.jstr "hi"), some (.jstr uuidA), some (.jstr cidA)⟩ (fun _ => "reply")
    "c" "u" "a" "hi" uuidA cidA uuidA 1000 sessA
    (by decide) (by decide) (by decide) (by decide) (by decide) (by decide)
    (by decide) (by decide) (by decide)

/-! ## C2: validation is pure and reports the first violated rule -/

/-- C2: the input-shape validation of the chat handler returns exactly
the earliest violated rule in the fixed spec order (malformed body,
missing message, empty message, too long, missing session, bad session
format, bad conversation format), and a rejected request is answered from
the body alone: for every database, clock and collaborator the handler
returns that same error, performs no write and never invokes the model. -/
theorem chat_validation_pure_first_rule :
    (∀ body : Option ChatBody, validateChatInput body = firstViolatedRule body) ∧
    (∀ (body : Option ChatBody) (errc : ChatError) (db : DB) (now : Int)
       (model : List (String × String) → String) (fc fu fa : String),
       validateChatInput body = some errc →
       postChat db now body model fc fu fa = ⟨.err errc, db, none⟩) := by
  constructor
  · intro body
    cases body with
    | none => rfl
    | some b =>
      obtain ⟨m, sv, cv⟩ := b
      cases m with
      | none => rfl
      | some mv =>
        cases mv with
        | jnull => rfl
        | jother => rfl
        | jstr s =>
          by_cases hs0 : s = ""
          · subst hs0; rfl
          · by_cases h0 : (jsTrim s).length = 0
            · simp [validateChatInput, firstViolatedRule, validationOrder, ruleViolated,
                nonEmptyStr, List.find?, hs0, h0]
            · by_cases h4 : 400 < (jsTrim s).length
              · simp [validateChatInput, firstViolatedRule, validationOrder, ruleViolated,
                  nonEmptyStr, List.find?, hs0, h0, h4]
              · cases sv with
                | none => simp [validateChatInput, firstViolatedRule, validationOrder,
                    ruleViolated, nonEmptyStr, List.find?, hs0, h0, h4]
                | some svv =>
                  cases svv with
                  | jnull => simp [validateChatInput, firstViolatedRule, validationOrder,
                      ruleViolated, nonEmptyStr, List.find?, hs0, h0, h4]
                  | jother => simp [validateChatInput, firstViolatedRule, validationOrder,
                      ruleViolated, nonEmptyStr, List.find?, hs0, h0, h4]
                  | jstr t =>
                    by_cases ht0 : t = ""
                    · subst ht0
                      simp [validateChatInput, firstViolatedRule, validationOrder,
                        ruleViolated, nonEmptyStr, List.find?, hs0, h0, h4]
                    · by_cases hu : isValidUUID t
                      · cases cv with
                        | none => simp [validateChatInput, firstViolatedRule, validationOrder,
                            ruleViolated, nonEmptyStr, convIdCheck, List.find?, hs0, h0, h4,
                            ht0, hu]
                        | some cvv =>
                          cases cvv with
                          | jnull => simp [validateChatInput, firstViolatedRule,
                              validationOrder, ruleViolated, nonEmptyStr, convIdCheck,
                              List.find?, hs0, h0, h4, ht0, hu]
                          | jother => simp [validateChatInput, firstViolatedRule,
                              validationOrder, ruleViolated, nonEmptyStr, convIdCheck,
                              List.find?, hs0, h0, h4, ht0, hu]
                          | jstr u =>
                            by_cases ho : isValidObjectId u
                            · simp [validateChatInput, firstViolatedRule, validationOrder,
                                ruleViolated, nonEmptyStr, convIdCheck, List.find?, hs0, h0,
                                h4, ht0, hu, ho]
                            · simp [validateChatInput, firstViolatedRule, validationOrder,
                                ruleViolated, nonEmptyStr, convIdCheck, List.find?, hs0, h0,
                                h4, ht0, hu, ho]
                      · simp [validateChatInput, firstViolatedRule, validationOrder,
                          ruleViolated, nonEmptyStr, List.find?, hs0, h0, h4, ht0, hu]
  · intro body errc db now model fc fu fa h
    unfold validateChatInput at h
    split at h
    · cases h; rfl
    · split at h
      · cases h; rename_i hm; simp [postChat, hm]
      · rename_i b msg hm
        split at h
        · cases h; rename_i h0; simp [postChat, hm, h0]
        · split at h
          · cases h; rename_i h0 h4; simp [postChat, hm, h0, h4]
          · rename_i h0 h4
            split at h
            · cases h; rename_i hs; simp [postChat, hm, h0, h4, hs]
            · rename_i sid hs
              split at h
              · rename_i hu
                split at h
                · cases h
                  rename_i hc
                  simp [postChat, hm, h0, h4, hs, hu, hc]
                · cases h
              · cases h; rename_i hu; simp [postChat, hm, h0, h4, hs, hu]

/-- Witness for C2 at a body violating several rules at once (null
message, malformed session id, malformed conversation id): the earliest
rule wins and the handler answers it with no write for a concrete
database. -/
theorem chat_validation_pure_first_rule_witness :
    validateChatInput (some ⟨some .jnull, some .jother, some .jother⟩) =
      some .missingMessage ∧
    postChat dbOwned 7 (some ⟨some .jnull, some .jother, some .jother⟩)
      (fun _ => "reply") "c" "u" "a" = ⟨.err .missingMessage, dbOwned, none⟩ :=
  ⟨chat_validation_pure_first_rule.1 (some ⟨some .jnull, some .jother, some .jother⟩),
   chat_validation_pure_first_rule.2 (some ⟨some .jnull, some .jother, some .jother⟩)
     .missingMessage dbOwned 7 (fun _ => "reply") "c" "u" "a" (by decide)⟩

/-! ## C7: model context is the ordered history plus the current message -/

/-- Inserting keeps the list a permutation of the cons. -/
lemma insertByCreatedAt_perm (m : Message) (l : List Message) :
    (insertByCreatedAt m l).Perm (m :: l) := by
  induction l with
  | nil => rfl
  | cons x xs ih =>
      unfold insertByCreatedAt
      by_cases hlt : m.createdAt < x.createdAt
      · rw [if_pos hlt]
      · rw [if_neg hlt]
        exact (ih.cons x).trans (List.Perm.swap m x xs)

/-- The insertion sort permutes its input. -/
lemma sortByCreatedAt_perm (l : List Message) : (sortByCreatedAt l).Perm l := by
  induction l with
  | nil => rfl
  | cons x xs ih =>
      exact (insertByCreatedAt_perm x (sortByCreatedAt xs)).trans (ih.cons x)

/-- Inserting into an ascending list keeps it ascending. -/
lemma insertByCreatedAt_sorted (m : Message) (l : List Message)
    (h : l.Pairwise (fun a b => a.createdAt ≤ b.createdAt)) :
    (insertByCreatedAt m l).Pairwise (fun a b => a.createdAt ≤ b.createdAt) := by
  induction l with
  | nil => simp [insertByCreatedAt]
  | cons x xs ih =>
      rw [List.pairwise_cons] at h
      obtain ⟨hx, hxs⟩ := h
      unfold insertByCreatedAt
      by_cases hlt : m.createdAt < x.createdAt
      · rw [if_pos hlt]
        rw [List.pairwise_cons]
        refine ⟨?_, List.pairwise_cons.mpr ⟨hx, hxs⟩⟩
        intro b hb
        rcases List.mem_cons.mp hb with hb | hb
        · rw [hb]; exact le_of_lt hlt
        · exact le_trans (le_of_lt hlt) (hx b hb)
      · rw [if_neg hlt]
        rw [List.pairwise_cons]
        refine ⟨?_, ih hxs⟩
        intro b hb
        have hb2 : b ∈ m :: xs := (insertByCreatedAt_perm m xs).mem_iff.mp hb
        rcases List.mem_cons.mp hb2 with hb2 | hb2
        · rw [hb2]; exact not_lt.mp hlt
        · exact hx b hb2

/-- The insertion sort produces an ascending list. -/
lemma sortByCreatedAt_sorted (l : List Message) :
    (sortByCreatedAt l).Pairwise (fun a b => a.createdAt ≤ b.createdAt) := by
  induction l with
  | nil => simp [sortByCreatedAt]
  | cons x xs ih => exact insertByCreatedAt_sorted x (sortByCreatedAt xs) ih

/-- The fetched history is ascending by createdAt. -/
lemma conversationMessages_sorted (db : DB) (cid : String) :
    (conversationMessages db cid).Pairwise (fun a b => a.createdAt ≤ b.createdAt) :=
  sortByCreatedAt_sorted _

/-- The fetched history holds exactly the messages of the conversation. -/
lemma conversationMessages_perm (db : DB) (cid : String) :
    (conversationMessages db cid).Perm
      (db.messages.filter (fun m => m.conversationId == cid)) :=
  sortByCreatedAt_perm _

/-- C7: on an accepted turn the messages array handed to the model
collaborator is the full pre-turn history of the conversation, an
ascending-createdAt permutation of exactly the stored rows of that
conversation, as role-content pairs, followed by the current user message;
because the history snapshot predates the append, the newly appended user
message contributes exactly the one final entry (under fresh row ids it
cannot occur in the history part); a turn opening a new conversation sends
only the current message. -/
theorem model_context_history_plus_current :
    (∀ (db : DB) (now : Int) (b : ChatBody)
       (model : List (String × String) → String) (fc fu fa msg sid cid v : String)
       (e : Int) (sess : Session) (conv : Conversation),
       nonEmptyStr b.message = some msg →
       ¬((jsTrim msg).length = 0) →
       ¬(400 < (jsTrim msg).length) →
       nonEmptyStr b.sessionId = some sid →
       isValidUUID sid = true →
       convIdCheck b.conversationId = some (some cid) →
       (validateSession db now sid).1 = .valid v e →
       getSessionById db sid = some sess →
       findConversationOwnedBySession db cid sess.id = some conv →
       (∀ m2 ∈ db.messages, m2.id ≠ fu) →
       (postChat db now (some b) model fc fu fa).modelCall =
         some ((conversationMessages db conv.id).map (fun m2 => (m2.role, m2.content)) ++
           [("user", msg)]) ∧
       (conversationMessages db conv.id).Pairwise
         (fun a a2 => a.createdAt ≤ a2.createdAt) ∧
       (conversationMessages db conv.id).Perm
         (db.messages.filter (fun m2 => m2.conversationId == conv.id)) ∧
       (∀ m2 ∈ conversationMessages db conv.id, m2.id ≠ fu)) ∧
    (∀ (db : DB) (now : Int) (b : ChatBody)
       (model : List (String × String) → String) (fc fu fa msg sid v : String)
       (e : Int) (sess : Session),
       nonEmptyStr b.message = some msg →
       ¬((jsTrim msg).length = 0) →
       ¬(400 < (jsTrim msg).length) →
       nonEmptyStr b.sessionId = some sid →
       isValidUUID sid = true →
       convIdCheck b.conversationId = some none →
       (validateSession db now sid).1 = .valid v e →
       getSessionById db sid = some sess →
       (postChat db now (some b) model fc fu fa).modelCall = some [("user", msg)]) := by
  constructor
  · intro db now b model fc fu fa msg sid cid v e sess conv hm h0 h4 hs hu hc hv hg hf hfresh
    rw [postChat_existing_run db now b model fc fu fa msg sid cid v e sess conv
      hm h0 h4 hs hu hc hv hg hf]
    refine ⟨?_, conversationMessages_sorted db conv.id, conversationMessages_perm db conv.id, ?_⟩
    · rw [runTurn_eq]
    · intro m2 hm2
      have hmem : m2 ∈ db.messages.filter (fun m3 => m3.conversationId == conv.id) :=
        (conversationMessages_perm db conv.id).mem_iff.mp hm2
      exact hfresh m2 (List.mem_filter.mp hmem).1
  · intro db now b model fc fu fa msg sid v e sess hm h0 h4 hs hu hc hv hg
    rw [postChat_fresh_run db now b model fc fu fa msg sid v e sess hm h0 h4 hs hu hc hv hg]
    rw [runTurn_eq]
    simp

/-- Witness for C7: against dbOwned the collaborator receives the two
stored turns in ascending order followed by the current message, and a
turn with no conversation id receives only the current message. -/
theorem model_context_history_plus_current_witness :
    (postChat dbOwned 0 (some bodyOwned) (fun _ => "reply") "c" "u" "a").modelCall =
      some [("user", "hi"), ("assistant", "yo"), ("user", "hello")] ∧
    (postChat dbOwned 0 (some ⟨some (.jstr "hello"), some (.jstr uuidA), none⟩)
       (fun _ => "reply") "c" "u" "a").modelCall = some [("user", "hello")] := by
  constructor
  · have h := (model_context_history_plus_current.1 dbOwned 0 bodyOwned (fun _ => "reply")
      "c" "u" "a" "hello" uuidA cidB uuidA 1000 sessA convOfA
      (by decide) (by decide) (by decide) (by decide) (by decide) (by decide)
      (by decide) (by decide) (by decide) (by decide)).1
    rw [h]; decide
  · exact model_context_history_plus_current.2 dbOwned 0
      ⟨some (.jstr "hello"), some (.jstr uuidA), none⟩ (fun _ => "reply")
      "c" "u" "a" "hello" uuidA uuidA 1000 sessA
      (by decide) (by decide) (by decide) (by decide) (by decide) (by decide)
      (by decide) (by decide)

/-! ## C8: length boundary on the trimmed message -/

/-- Counterexample for C8 as stated: the literally empty message string,
which is empty after trimming, does not fail emptyMessage; the falsy
presence check catches it first and the validator answers missingMessage. -/
theorem empty_message_fails_missing_counterexample :
    validateChatInput (some ⟨some (.jstr ""), some (.jstr uuidA), none⟩) =
      some .missingMessage ∧
    validateChatInput (some ⟨some (.jstr ""), some (.jstr uuidA), none⟩) ≠
      some .emptyMessage ∧
    (jsTrim "").length = 0 :=
  ⟨rfl, by decide, rfl⟩

/-- C8 amended: the length rules read the trimmed text: a message string
whose trimmed length is exactly 400 passes the message rules and
validation proceeds exactly as for any passing message, trimmed length
401 fails messageTooLong, and a nonempty string that is all whitespace,
so empty after trimming, fails emptyMessage; the literally empty message
string is caught by the earlier missing-message presence rule and fails
missingMessage, not emptyMessage. -/
theorem message_trim_boundary (s : String) (sv cv : Option JsonValue) :
    (s = "" →
       validateChatInput (some ⟨some (.jstr s), sv, cv⟩) = some .missingMessage) ∧
    (s ≠ "" → (jsTrim s).length = 0 →
       validateChatInput (some ⟨some (.jstr s), sv, cv⟩) = some .emptyMessage) ∧
    ((jsTrim s).length = 400 →
       validateChatInput (some ⟨some (.jstr s), sv, cv⟩) =
         validateChatInput (some ⟨some (.jstr "x"), sv, cv⟩)) ∧
    ((jsTrim s).length = 401 →
       validateChatInput (some ⟨some (.jstr s), sv, cv⟩) = some .messageTooLong) := by
  refine ⟨?_, ?_, ?_, ?_⟩
  · intro hs0; subst hs0; rfl
  · intro hs0 h0
    simp [validateChatInput, nonEmptyStr, hs0, h0]
  · intro h400
    have hs0 : s ≠ "" := by
      intro hempty; subst hempty; exact absurd h400 (by decide)
    have h0 : ¬((jsTrim s).length = 0) := by rw [h400]; decide
    have h4 : ¬(400 < (jsTrim s).length) := by rw [h400]; decide
    have hx0 : ¬((jsTrim "x").length = 0) := by decide
    have hx4 : ¬(400 < (jsTrim "x").length) := by decide
    have hxne : ("x" : String) ≠ "" := by decide
    simp [validateChatInput, nonEmptyStr, hs0, h0, h4, hxne, hx0, hx4]
  · intro h401
    have hs0 : s ≠ "" := by
      intro hempty; subst hempty; exact absurd h401 (by decide)
    have h0 : ¬((jsTrim s).length = 0) := by rw [h401]; decide
    have h4 : 400 < (jsTrim s).length := by rw [h401]; decide
    simp [validateChatInput, nonEmptyStr, hs0, h0, h4]

/-- A 400-character message. -/
def s400 : String := String.mk (List.replicate 400 'a')

/-- A 401-character message. -/
def s401 : String := String.mk (List.replicate 401 'a')

set_option maxRecDepth 100000 in
/-- Witness for C8 amended: with a good session token, the 400-character
message passes validation, the 401-character one fails messageTooLong, an
all-whitespace message fails emptyMessage, and the empty message fails
missingMessage. -/
theorem message_trim_boundary_witness :
    validateChatInput (some ⟨some (.jstr ""), some (.jstr uuidA), none⟩) =
      some .missingMessage ∧
    validateChatInput (some ⟨some (.jstr "   "), some (.jstr uuidA), none⟩) =
      some .emptyMessage ∧
    validateChatInput (some ⟨some (.jstr s400), some (.jstr uuidA), none⟩) = none ∧
    validateChatInput (some ⟨some (.jstr s401), some (.jstr uuidA), none⟩) =
      some .messageTooLong :=
  ⟨(message_trim_boundary "" (some (.jstr uuidA)) none).1 rfl,
   (message_trim_boundary "   " (some (.jstr uuidA)) none).2.1 (by decide) (by decide),
   ((message_trim_boundary s400 (some (.jstr uuidA)) none).2.2.1 (by decide)).trans (by decide),
   (message_trim_boundary s401 (some (.jstr uuidA)) none).2.2.2 (by decide)⟩

/-! ## C10: the raw, untrimmed message is persisted and forwarded -/

/-- C10: an accepted turn persists the user row and hands the model the
original message string exactly as received, not the trimmed text used by
validation, and likewise stores the raw model reply; consequently stored
user content may carry surrounding whitespace and exceed 400 characters
whenever its trimmed length is within the cap.  Both the
existing-conversation branch and the new-conversation branch are
characterized in full. -/
theorem raw_message_persisted_and_forwarded :
    (∀ (db : DB) (now : Int) (b : ChatBody)
       (model : List (String × String) → String) (fc fu fa msg sid cid v : String)
       (e : Int) (sess : Session) (conv : Conversation),
       nonEmptyStr b.message = some msg →
       ¬((jsTrim msg).length = 0) →
       ¬(400 < (jsTrim msg).length) →
       nonEmptyStr b.sessionId = some sid →
       isValidUUID sid = true →
       convIdCheck b.conversationId = some (some cid) →
       (validateSession db now sid).1 = .valid v e →
       getSessionById db sid = some sess →
       findConversationOwnedBySession db cid sess.id = some conv →
       postChat db now (some b) model fc fu fa =
         ⟨.ok (model ((conversationMessages db conv.id).map
             (fun m2 => (m2.role, m2.content)) ++ [("user", msg)])) conv.id sid,
          ⟨db.sessions, db.conversations,
           db.messages ++
             [⟨fu, conv.id, "user", msg, now⟩,
              ⟨fa, conv.id, "assistant",
               model ((conversationMessages db conv.id).map
                 (fun m2 => (m2.role, m2.content)) ++ [("user", msg)]), now⟩]⟩,
          some ((conversationMessages db conv.id).map
            (fun m2 => (m2.role, m2.content)) ++ [("user", msg)])⟩) ∧
    (∀ (db : DB) (now : Int) (b : ChatBody)
       (model : List (String × String) → String) (fc fu fa msg sid v : String)
       (e : Int) (sess : Session),
       nonEmptyStr b.message = some msg →
       ¬((jsTrim msg).length = 0) →
       ¬(400 < (jsTrim msg).length) →
       nonEmptyStr b.sessionId = some sid →
       isValidUUID sid = true →
       convIdCheck b.conversationId = some none →
       (validateSession db now sid).1 = .valid v e →
       getSessionById db sid = some sess →
       postChat db now (some b) model fc fu fa =
         ⟨.ok (model [("user", msg)]) fc sid,
          ⟨db.sessions, db.conversations ++ [⟨fc, sess.id⟩],
           db.messages ++
             [⟨fu, fc, "user", msg, now⟩,
              ⟨fa, fc, "assistant", model [("user", msg)], now⟩]⟩,
          some [("user", msg)]⟩) := by
  constructor
  · intro db now b model fc fu fa msg sid cid v e sess conv hm h0 h4 hs hu hc hv hg hf
    rw [postChat_existing_run db now b model fc fu fa msg sid cid v e sess conv
      hm h0 h4 hs hu hc hv hg hf]
    rw [runTurn_eq]
  · intro db now b model fc fu fa msg sid v e sess hm h0 h4 hs hu hc hv hg
    rw [postChat_fresh_run db now b model fc fu fa msg sid v e sess hm h0 h4 hs hu hc hv hg]
    rw [runTurn_eq]
    simp

/-- A 403-character message whose trimmed length is exactly 400. -/
def msgPad : String := String.mk (' ' :: (List.replicate 400 'a' ++ [' ', ' ']))

set_option maxRecDepth 100000 in
/-- Witness for C10: the padded 403-character message passes validation
and is stored and forwarded verbatim, whitespace included, exceeding the
400-character cap that applies only to its trimmed form. -/
theorem raw_message_persisted_and_forwarded_witness :
    (postChat dbOwned 0
       (some ⟨some (.jstr msgPad), some (.jstr uuidA), some (.jstr cidB)⟩)
       (fun _ => "reply") "c" "u" "a").db.messages =
      dbOwned.messages ++
        [⟨"u", cidB, "user", msgPad, 0⟩, ⟨"a", cidB, "assistant", "reply", 0⟩] ∧
    400 < msgPad.length ∧
    (jsTrim msgPad).length = 400 ∧
    msgPad ≠ jsTrim msgPad := by
  have h := raw_message_persisted_and_forwarded.1 dbOwned 0
    ⟨some (.jstr msgPad), some (.jstr uuidA), some (.jstr cidB)⟩ (fun _ => "reply")
    "c" "u" "a" msgPad uuidA cidB uuidA 1000 sessA convOfA
    (by decide) (by decide) (by decide) (by decide) (by decide) (by decide)
    (by decide) (by decide) (by decide)
  refine ⟨?_, by decide, by decide, by decide⟩
  rw [h]
  rfl

end AiChat
